import Mathlib

/-!
Verification development for the tvilling repository: a shallow embedding of
its manufacturing components (Feeder, Robot, Piston), the GCP IoT session
glue (JWT minting, disconnect handling, MQTT topics) and the inbound command
decoding, together with theorems settling the specification claims.
-/

/-! ## Feeder (src/manufacturing_components/feeder.rs)

The Rust `Feeder` holds a name, a `u32` count of remaining material, a GPIO
line and an async handle on the edge-event stream of that line.  We embed the
`u32` count as a `Nat` (values below `2 ^ 32`; `u32` release-profile overflow
wraps modulo `2 ^ 32`), the pending edge events of the async handle as a
`List Unit` (the code ignores the event payload), and the instantaneous
electrical level of the line (read by `is_empty` through `get_value`) as a
`Nat` field. -/

def U32_MOD : Nat := 2 ^ 32

structure Feeder where
  name : String
  count : Nat
  lineLevel : Nat
  events : List Unit
deriving Repr, DecidableEq

/-- Embeds `feeder::Error` (`enum Error { NoMoreSupply }`). -/
inductive Feeder.Error where
  | NoMoreSupply
deriving Repr, DecidableEq

/-- Embeds `feeder::Event` (`enum Event { MaterialPickedUp }`). -/
inductive Feeder.Event where
  | MaterialPickedUp
deriving Repr, DecidableEq

/-- Embeds `Feeder::async_next_event`: if `count == 0` return
`Err(NoMoreSupply)` without touching the event stream; otherwise await
`event_handle.next()` — when it yields an event (`Some` branch) decrement
`count` by one and consume the event, and in either case return
`Ok(MaterialPickedUp)`.  The returned pair is (result, updated feeder). -/
def Feeder.async_next_event (f : Feeder) : Except Feeder.Error Feeder.Event × Feeder :=
  if f.count = 0 then
    (Except.error Feeder.Error.NoMoreSupply, f)
  else
    match f.events with
    | _e :: rest =>
        (Except.ok Feeder.Event.MaterialPickedUp,
          { f with count := f.count - 1, events := rest })
    | [] => (Except.ok Feeder.Event.MaterialPickedUp, f)

/-- Embeds `Feeder::is_empty`: `request.get_value().unwrap() == 1`, a
non-suspending probe of the instantaneous line level, independent of the
`count` field. -/
def Feeder.is_empty (f : Feeder) : Bool :=
  f.lineLevel == 1

/-- Embeds `Feeder::add_new_material`: `self.count += new_material_count` on a
`u32`, which wraps modulo `2 ^ 32` under release-profile overflow semantics. -/
def Feeder.add_new_material (f : Feeder) (new_material_count : Nat) : Feeder :=
  { f with count := (f.count + new_material_count) % U32_MOD }

/-- Snapshot produced by the `Serialize` impl for `Feeder`: fields `name`,
`count` and a freshly sampled `updateTimestamp`. -/
structure FeederSnapshot where
  name : String
  count : Nat
  updateTimestamp : String
deriving Repr, DecidableEq

/-- Embeds the `Serialize` impl for `Feeder`; `now` is the wall-clock string
sampled by `SystemTime::iso8601_now()` at serialization time.  Takes the
feeder by shared reference: it reads `count` and mutates nothing. -/
def Feeder.serialize (f : Feeder) (now : String) : FeederSnapshot :=
  { name := f.name, count := f.count, updateTimestamp := now }

/-- The mutating operations of the public `Feeder` interface, used to state
invariants over arbitrary operation sequences.  `is_empty` and serialization
take `&self` and are embedded as pure functions leaving the state unchanged. -/
inductive FeederOp where
  | consume
  | replenish (n : Nat)
deriving Repr, DecidableEq

def Feeder.applyOp (f : Feeder) : FeederOp → Feeder
  | FeederOp.consume => (f.async_next_event).2
  | FeederOp.replenish n => f.add_new_material n

def Feeder.applyOps (f : Feeder) : List FeederOp → Feeder
  | [] => f
  | op :: rest => (f.applyOp op).applyOps rest

/-! ## Robot (src/manufacturing_components/robot.rs)

The Rust `Robot` holds a name, a `RobotPosition` (defaulting to `Position1`)
and an async handle on the rising-edge event stream of its GPIO line. -/

/-- Embeds `robot::RobotPosition`. -/
inductive RobotPosition where
  | Position1
  | Position15
  | Position66
deriving Repr, DecidableEq

/-- Embeds `Default for RobotPosition`: `Position1`. -/
def RobotPosition.default : RobotPosition := RobotPosition.Position1

/-- The position update performed by the `match self.position` inside
`Robot::async_next_event`. -/
def RobotPosition.next : RobotPosition → RobotPosition
  | RobotPosition.Position1 => RobotPosition.Position15
  | RobotPosition.Position15 => RobotPosition.Position66
  | RobotPosition.Position66 => RobotPosition.Position1

structure Robot where
  name : String
  position : RobotPosition
  events : List Unit
deriving Repr, DecidableEq

/-- Embeds `Robot::async_next_event`: await `event_handle.next()`; when it
yields an event, advance `position` by the cyclic match; always return
`Ok(())` — the function body has no error path, its `Result` is always the
`Ok` variant. -/
def Robot.async_next_event (r : Robot) : Except String Unit × Robot :=
  match r.events with
  | _e :: rest =>
      (Except.ok (), { r with position := r.position.next, events := rest })
  | [] => (Except.ok (), r)

/-- Repeated calls to `Robot.async_next_event`, keeping only the state. -/
def Robot.run (r : Robot) : Nat → Robot
  | 0 => r
  | n + 1 => (r.async_next_event).2.run n

/-! ## Piston (src/manufacturing_components/piston.rs)

The Rust `Piston` holds a name, a `PistonStates` (defaulting to `Steady`) and
an async handle on the rising-edge event stream of its GPIO line, requested
with `LineRequestFlags::INPUT`.  The `PistonActions` trait declaring
`depress`, `steady` and `depress_for` exists in the file but is implemented
for no type, so the only public operations on `Piston` are construction and
serialization. -/

/-- Embeds `piston::PistonStates`. -/
inductive PistonStates where
  | Steady
  | Depressed
deriving Repr, DecidableEq

/-- Embeds `Default for PistonStates`: `Steady`. -/
def PistonStates.default : PistonStates := PistonStates.Steady

/-- Embeds `gpio_cdev::LineRequestFlags` as far as the claims need: whether a
line is requested as an input or driven as an output. -/
inductive LineRequestFlag where
  | INPUT
  | OUTPUT
deriving Repr, DecidableEq

structure Piston where
  name : String
  state : PistonStates
  requestFlag : LineRequestFlag
deriving Repr, DecidableEq

/-- Embeds `Piston::new`: requests the line with `LineRequestFlags::INPUT`
(rising-edge events) and sets `state` to `PistonStates::default()`. -/
def Piston.new (name : String) : Piston :=
  { name := name, state := PistonStates.default, requestFlag := LineRequestFlag.INPUT }

/-- Snapshot produced by the `Serialize` impl for `Piston`. -/
structure PistonSnapshot where
  name : String
  state : PistonStates
  updateTimestamp : String
deriving Repr, DecidableEq

/-- Embeds the `Serialize` impl for `Piston`; reads `&self`, mutates
nothing. -/
def Piston.serialize (p : Piston) (now : String) : PistonSnapshot :=
  { name := p.name, state := p.state, updateTimestamp := now }

/-- The public operations available on a constructed `Piston`.  The
`PistonActions` trait is not implemented for `Piston`, so serialization (via
`&self`) is the only operation; it leaves the value untouched. -/
inductive PistonOp where
  | serializeOp (now : String)
deriving Repr, DecidableEq

def Piston.applyOp (p : Piston) : PistonOp → Piston
  | PistonOp.serializeOp _now => p

def Piston.applyOps (p : Piston) : List PistonOp → Piston
  | [] => p
  | op :: rest => (p.applyOp op).applyOps rest

/-! ## Credential minting (src/main.rs and src/gcp_iot/mod.rs, new_password_jwt)

`new_password_jwt` reads `SystemTime::now()` at the moment of the call, reads
the private key file, and passes the current time in seconds as the `iat`
argument of `create_google_jwt_es256`.  We embed the wall clock as the `now`
parameter (the value the call reads at mint time) and the third-party JWT
constructor as a record keeping the claims it embeds. -/

/-- Interface model of `google_cloud_iot_jwt::create_google_jwt_es256`: a
token carrying the audience (project id), the claimed issue time `iat` and
the signing key. -/
structure GoogleJwt where
  aud : String
  iat : Nat
  signingKey : String
deriving Repr, DecidableEq

def create_google_jwt_es256 (projectId : String) (privateKey : String)
    (iat : Nat) : GoogleJwt :=
  { aud := projectId, iat := iat, signingKey := privateKey }

/-- Embeds `new_password_jwt`: `now` is the `SystemTime::now()` reading taken
inside the call (fresh at every mint, never cached) and `privateKey` the
content of `ec_private.pem` read inside the call; the token is built with the
fixed audience and the mint-time clock reading as `iat`. -/
def new_password_jwt (now : Nat) (privateKey : String) : GoogleJwt :=
  create_google_jwt_es256 "digital-twin-experiment" privateKey now

/-! ## Disconnect handling (src/main.rs get_client, src/gcp_iot/mod.rs
gcp_connect)

Both call sites install the same `disconnected_callback` on the MQTT client:
on `ReasonCode::KeepAliveTimeout` it blocks on `new_password_jwt`, rebuilds
`SslOptions` and `ConnectOptions` with the fresh token, and calls
`client.connect`; every other reason code only logs an info message.  We
embed the callback as the sequence of client-affecting actions one
invocation performs. -/

/-- Embeds `paho_mqtt::ReasonCode` as far as the match in the callback
distinguishes: `KeepAliveTimeout` against every other reason code (the
wildcard arm); `other` carries the numeric code of the remaining variants. -/
inductive ReasonCode where
  | KeepAliveTimeout
  | other (code : Nat)
deriving Repr, DecidableEq

/-- The externally visible actions the disconnect callback can perform. -/
inductive ClientAction where
  | mintJwt
  | buildConnectOptions
  | connect
  | logInfo (msg : String)
deriving Repr, DecidableEq, BEq

/-- Embeds the closure passed to `client.set_disconnected_callback` in both
`get_client` (main.rs) and `gcp_connect` (gcp_iot/mod.rs): the ordered list
of actions one invocation of the callback performs for a given reason
code. -/
def disconnected_callback (reason : ReasonCode) : List ClientAction :=
  match reason with
  | ReasonCode.KeepAliveTimeout =>
      [ClientAction.mintJwt, ClientAction.buildConnectOptions, ClientAction.connect]
  | _ =>
      [ClientAction.logInfo
        "Disconnected for reasons other than time out, unable to resolve"]

/-! ## MQTT topics (src/main.rs, src/gcp_iot/mod.rs)

`main` subscribes to `format!("/devices/.../config")` and its publish loop
builds messages on `format!("/devices/.../events")`; the `gcp_iot` test
publishes to `format!("/devices/.../events/piston")` and the robot and
feeder counterparts. -/

/-- Embeds the subscription topic of `main` (and of the `gcp_iot` test):
the `config` channel of the device. -/
def subscribe_topic (device_id : String) : String :=
  "/devices/" ++ device_id ++ "/config"

/-- Embeds the topic used by both `Message::new` calls in the publish loop of
`main`: the bare `events` channel, with no source segment. -/
def main_publish_topic (device_id : String) : String :=
  "/devices/" ++ device_id ++ "/events"

/-- Embeds the source-specific topics of the `push_to_custom_topics` test in
gcp_iot/mod.rs. -/
def test_publish_topic (device_id source : String) : String :=
  "/devices/" ++ device_id ++ "/events/" ++ source

/-! ## Inbound command decoding (src/gcp_iot/message.rs)

`StartRequest` derives `Deserialize` with a single `count: u32` field, and is
decoded from JSON with `serde_json::from_str`.  We embed the JSON values the
claims range over and the serde semantics of decoding a `u32` field: an
integer number in `[0, 2 ^ 32)` succeeds, a negative or out-of-range number
fails with an out-of-range error, and a non-numeric value fails with a type
error; no coercion takes place. -/

inductive JsonValue where
  | int (n : Int)
  | str (s : String)
  | bool (b : Bool)
  | null
deriving Repr, DecidableEq

/-- Embeds `StartRequest`. -/
structure StartRequest where
  count : Nat
deriving Repr, DecidableEq

/-- Serde semantics of deserializing the `u32` field: only an integer number
within the `u32` range is accepted, as the exact value. -/
def decode_u32 (v : JsonValue) : Except String Nat :=
  match v with
  | JsonValue.int n =>
      if 0 ≤ n ∧ n < (U32_MOD : Int) then Except.ok n.toNat
      else Except.error "invalid value: integer out of range of u32"
  | _ => Except.error "invalid type: expected u32"

/-- Embeds `serde_json::from_str::<StartRequest>` on an already parsed JSON
object, given as its field list: the `count` field must be present and decode
as a `u32`. -/
def decode_start_request (fields : List (String × JsonValue)) :
    Except String StartRequest :=
  match fields.lookup "count" with
  | some v => (decode_u32 v).map (fun c => { count := c })
  | none => Except.error "missing field count"

/-- Applying the available public operations never changes a `Piston`
value. -/
theorem Piston.applyOps_id (p : Piston) (ops : List PistonOp) :
    p.applyOps ops = p := by
  induction ops with
  | nil => rfl
  | cons op rest ih => cases op; simpa [Piston.applyOps, Piston.applyOp] using ih

/-- C1: `Feeder.async_next_event` fails with `NoMoreSupply` when the count is
zero, before consulting the GPIO line (the feeder, its event stream included,
is returned untouched); otherwise, when the line yields its next edge
transition, it decrements the count by exactly one, consumes that one edge,
and yields `MaterialPickedUp`. -/
theorem feeder_next_event_contract (f : Feeder) :
    (f.count = 0 →
      f.async_next_event = (Except.error Feeder.Error.NoMoreSupply, f))
    ∧ (∀ e rest, f.count ≠ 0 → f.events = e :: rest →
        f.async_next_event =
          (Except.ok Feeder.Event.MaterialPickedUp,
            { f with count := f.count - 1, events := rest })
        ∧ (f.async_next_event).2.count + 1 = f.count) := by
  constructor
  · intro h
    simp [Feeder.async_next_event, h]
  · intro e rest hc he
    refine ⟨by simp [Feeder.async_next_event, hc, he], ?_⟩
    simp only [Feeder.async_next_event, he, if_neg hc]
    omega

/-- Witness for C1 at concrete feeders. -/
theorem feeder_next_event_contract_witness :
    Feeder.async_next_event ⟨"material feeder", 0, 0, [(), ()]⟩ =
      (Except.error Feeder.Error.NoMoreSupply, ⟨"material feeder", 0, 0, [(), ()]⟩)
    ∧ Feeder.async_next_event ⟨"material feeder", 5, 0, [(), ()]⟩ =
        (Except.ok Feeder.Event.MaterialPickedUp, ⟨"material feeder", 4, 0, [()]⟩)
    ∧ (Feeder.async_next_event ⟨"material feeder", 5, 0, [(), ()]⟩).2.count + 1 = 5 :=
  ⟨(feeder_next_event_contract ⟨"material feeder", 0, 0, [(), ()]⟩).1 rfl,
   ((feeder_next_event_contract ⟨"material feeder", 5, 0, [(), ()]⟩).2
      () [()] (by decide) rfl).1,
   ((feeder_next_event_contract ⟨"material feeder", 5, 0, [(), ()]⟩).2
      () [()] (by decide) rfl).2⟩

/-- C3: the feeder count never goes negative across any sequence of public
operations; consuming at count zero is an error that leaves the state
untouched (no saturating clamp, no underflow); a successful consumption is an
exact decrement by one over the integers; serialization reports the count
unchanged. -/
theorem feeder_count_invariant (f : Feeder) (ops : List FeederOp) (now : String) :
    0 ≤ ((f.applyOps ops).count : Int)
    ∧ (f.count = 0 →
        f.async_next_event = (Except.error Feeder.Error.NoMoreSupply, f))
    ∧ (∀ e rest, f.count ≠ 0 → f.events = e :: rest →
        ((f.async_next_event).2.count : Int) = (f.count : Int) - 1)
    ∧ (f.serialize now).count = f.count := by
  refine ⟨?_, ?_, ?_, rfl⟩
  · exact_mod_cast Nat.zero_le _
  · intro h
    simp [Feeder.async_next_event, h]
  · intro e rest hc he
    simp only [Feeder.async_next_event, he, if_neg hc]
    omega

/-- Witness for C3 at concrete feeders and a concrete operation sequence. -/
theorem feeder_count_invariant_witness :
    0 ≤ ((Feeder.applyOps ⟨"f", 3, 0, [(), ()]⟩
          [FeederOp.replenish 2, FeederOp.consume]).count : Int)
    ∧ Feeder.async_next_event ⟨"f", 0, 1, []⟩ =
        (Except.error Feeder.Error.NoMoreSupply, ⟨"f", 0, 1, []⟩)
    ∧ ((Feeder.async_next_event ⟨"f", 3, 0, [(), ()]⟩).2.count : Int) =
        ((3 : Nat) : Int) - 1
    ∧ (Feeder.serialize ⟨"f", 3, 0, [(), ()]⟩ "2022-01-01T00:00:00Z").count = 3 :=
  ⟨(feeder_count_invariant ⟨"f", 3, 0, [(), ()]⟩
      [FeederOp.replenish 2, FeederOp.consume] "t").1,
   (feeder_count_invariant ⟨"f", 0, 1, []⟩ [] "t").2.1 rfl,
   (feeder_count_invariant ⟨"f", 3, 0, [(), ()]⟩ [] "t").2.2.1 () [()] (by decide) rfl,
   (feeder_count_invariant ⟨"f", 3, 0, [(), ()]⟩ [] "2022-01-01T00:00:00Z").2.2.2⟩

/-- C4: `Robot.async_next_event` always returns the `Ok` variant; on each
observed edge the position advances cyclically Position1 → Position15 →
Position66 → Position1; after exactly 3 observed edges starting from
Position1 the position is Position1 again. -/
theorem robot_cycle_spec :
    (∀ r : Robot, (r.async_next_event).1 = Except.ok ())
    ∧ RobotPosition.next RobotPosition.Position1 = RobotPosition.Position15
    ∧ RobotPosition.next RobotPosition.Position15 = RobotPosition.Position66
    ∧ RobotPosition.next RobotPosition.Position66 = RobotPosition.Position1
    ∧ (∀ name p e rest,
        (Robot.async_next_event ⟨name, p, e :: rest⟩).2.position = p.next)
    ∧ (∀ name rest,
        (Robot.run ⟨name, RobotPosition.Position1, () :: () :: () :: rest⟩ 3).position
          = RobotPosition.Position1) := by
  refine ⟨?_, rfl, rfl, rfl, ?_, ?_⟩
  · intro r
    cases hr : r.events <;> simp [Robot.async_next_event, hr]
  · intro name p e rest
    simp [Robot.async_next_event]
  · intro name rest
    simp [Robot.run, Robot.async_next_event, RobotPosition.next]

/-- C9: every `Piston` built by `Piston::new` has state `Steady`, its line is
requested as an input, and no sequence of available public operations (the
`PistonActions` trait is unimplemented, leaving only serialization) ever
changes that: every reachable `Piston` value still has state `Steady` and an
input-requested line, and its serialization reports `Steady`. -/
theorem piston_state_invariant (name : String) (ops : List PistonOp) (now : String) :
    (Piston.new name).state = PistonStates.Steady
    ∧ ((Piston.new name).applyOps ops).state = PistonStates.Steady
    ∧ ((Piston.new name).applyOps ops).requestFlag = LineRequestFlag.INPUT
    ∧ (((Piston.new name).applyOps ops).serialize now).state = PistonStates.Steady := by
  refine ⟨rfl, ?_, ?_, ?_⟩ <;>
    simp [Piston.applyOps_id, Piston.new, Piston.serialize, PistonStates.default]

/-- C10: `Feeder.is_empty` returns true exactly when the instantaneous line
level reads 1 and is independent of the count field (feeders agreeing on the
line level agree on `is_empty`, whatever their counts); at the concrete state
with count 0 and line level 0, `is_empty` is false while `async_next_event`
fails with `NoMoreSupply`, so the two notions of emptiness disagree. -/
theorem is_empty_noninterference (f g : Feeder) :
    (f.lineLevel = g.lineLevel → f.is_empty = g.is_empty)
    ∧ (f.is_empty = true ↔ f.lineLevel = 1)
    ∧ Feeder.is_empty ⟨"material feeder", 0, 0, []⟩ = false
    ∧ (Feeder.async_next_event ⟨"material feeder", 0, 0, []⟩).1 =
        Except.error Feeder.Error.NoMoreSupply := by
  refine ⟨?_, ?_, rfl, rfl⟩
  · intro h
    simp [Feeder.is_empty, h]
  · simp [Feeder.is_empty]

/-- Witness for C10: two feeders with different counts but equal line levels
have equal `is_empty`, and a feeder with line level 1 is reported empty. -/
theorem is_empty_noninterference_witness :
    Feeder.is_empty ⟨"a", 0, 1, []⟩ = Feeder.is_empty ⟨"b", 7, 1, [()]⟩
    ∧ Feeder.is_empty ⟨"a", 0, 1, []⟩ = true :=
  ⟨(is_empty_noninterference ⟨"a", 0, 1, []⟩ ⟨"b", 7, 1, [()]⟩).1 rfl,
   (is_empty_noninterference ⟨"a", 0, 1, []⟩ ⟨"b", 7, 1, [()]⟩).2.1.mpr rfl⟩

/-- C2: one invocation of the disconnect callback on `KeepAliveTimeout`
performs exactly one rotation sequence — mint a fresh credential, rebuild the
connection options with it, and issue a reconnect, in that order — while any
other reason code produces only a log message, with no credential mint and no
reconnect attempt. -/
theorem disconnect_rotation_policy :
    disconnected_callback ReasonCode.KeepAliveTimeout =
      [ClientAction.mintJwt, ClientAction.buildConnectOptions, ClientAction.connect]
    ∧ (disconnected_callback ReasonCode.KeepAliveTimeout).count ClientAction.mintJwt = 1
    ∧ (disconnected_callback ReasonCode.KeepAliveTimeout).count ClientAction.connect = 1
    ∧ (∀ reason, reason ≠ ReasonCode.KeepAliveTimeout →
        ClientAction.mintJwt ∉ disconnected_callback reason
        ∧ ClientAction.connect ∉ disconnected_callback reason
        ∧ ∃ msg, disconnected_callback reason = [ClientAction.logInfo msg]) := by
  refine ⟨rfl, by decide, by decide, ?_⟩
  intro reason h
  cases reason with
  | KeepAliveTimeout => exact absurd rfl h
  | other code =>
      exact ⟨by simp [disconnected_callback], by simp [disconnected_callback],
        ⟨"Disconnected for reasons other than time out, unable to resolve", rfl⟩⟩

/-- Witness for C2 at the concrete reason code 0 (a non-timeout
disconnect). -/
theorem disconnect_rotation_policy_witness :
    ClientAction.mintJwt ∉ disconnected_callback (ReasonCode.other 0)
    ∧ ClientAction.connect ∉ disconnected_callback (ReasonCode.other 0) :=
  ⟨(disconnect_rotation_policy.2.2.2 (ReasonCode.other 0) (by decide)).1,
   (disconnect_rotation_policy.2.2.2 (ReasonCode.other 0) (by decide)).2.1⟩

/-- C5: decoding an inbound start-cycle command fails on a negative count and
on every non-numeric count value (no silent coercion), while the count 5 and,
generally, every non-negative integer in `u32` range decodes to exactly
itself. -/
theorem start_request_decoding (n : Int) (m : Nat) (s : String) (b : Bool) :
    (n < 0 → ∃ e, decode_start_request [("count", JsonValue.int n)] = Except.error e)
    ∧ (∃ e, decode_start_request [("count", JsonValue.str s)] = Except.error e)
    ∧ (∃ e, decode_start_request [("count", JsonValue.bool b)] = Except.error e)
    ∧ (∃ e, decode_start_request [("count", JsonValue.null)] = Except.error e)
    ∧ decode_start_request [("count", JsonValue.int 5)] = Except.ok { count := 5 }
    ∧ (m < U32_MOD →
        decode_start_request [("count", JsonValue.int (m : Int))] =
          Except.ok { count := m }) := by
  have hM : ((U32_MOD : Nat) : Int) = 4294967296 := by norm_num [U32_MOD]
  refine ⟨?_, ⟨_, rfl⟩, ⟨_, rfl⟩, ⟨_, rfl⟩, ?_, ?_⟩
  · intro hneg
    refine ⟨"invalid value: integer out of range of u32", ?_⟩
    simp only [decode_start_request, List.lookup, beq_self_eq_true, decode_u32]
    rw [if_neg]
    · rfl
    · omega
  · simp only [decode_start_request, List.lookup, beq_self_eq_true, decode_u32]
    rw [if_pos]
    · rfl
    · exact ⟨by norm_num, by omega⟩
  · intro hm
    have hx : (0 : Int) ≤ (m : Int) ∧ (m : Int) < ((U32_MOD : Nat) : Int) :=
      ⟨Int.natCast_nonneg m, by omega⟩
    simp only [decode_start_request, List.lookup, beq_self_eq_true, decode_u32]
    rw [if_pos hx, Int.toNat_natCast]
    rfl

/-- Witness for C5: decoding count -5 fails, decoding count 7 yields 7. -/
theorem start_request_decoding_witness :
    (∃ e, decode_start_request [("count", JsonValue.int (-5))] = Except.error e)
    ∧ decode_start_request [("count", JsonValue.int ((7 : Nat) : Int))] =
        Except.ok { count := 7 } :=
  ⟨(start_request_decoding (-5) 7 "five" true).1 (by norm_num),
   (start_request_decoding (-5) 7 "five" true).2.2.2.2.2 (by norm_num [U32_MOD])⟩

/-- C6 counterexample: the claim that all outbound publishing uses topics of
the form `/devices/.../events/...` with a source segment is false on the
code — the publish loop of `main` publishes on the bare events topic, which
matches no source-suffixed form (at device id dev-1, no source string makes
the two equal). -/
theorem main_publish_topic_lacks_source :
    ¬ ∃ source : String,
      main_publish_topic "dev-1" =
        "/devices/" ++ "dev-1" ++ "/events/" ++ source := by
  rintro ⟨s, h⟩
  have hl := congrArg String.length h
  simp only [main_publish_topic, String.length_append] at hl
  have h1 : ("/devices/" : String).length = 9 := by decide
  have h2 : ("/events" : String).length = 7 := by decide
  have h3 : ("/events/" : String).length = 8 := by decide
  omega

/-- C6 amended: inbound command subscription uses the config topic of the
device; the publish loop of `main` publishes on the bare events topic of the
device, which carries no source segment (it equals no source-suffixed topic);
only the gcp_iot test publishes on source-suffixed topics of the form
`/devices/.../events/...` distinguishing robot, feeder and piston. -/
theorem topics_amended (device_id source : String) :
    subscribe_topic device_id = "/devices/" ++ device_id ++ "/config"
    ∧ main_publish_topic device_id = "/devices/" ++ device_id ++ "/events"
    ∧ (∀ s, main_publish_topic device_id ≠
        "/devices/" ++ device_id ++ "/events/" ++ s)
    ∧ test_publish_topic device_id source =
        "/devices/" ++ device_id ++ "/events/" ++ source := by
  refine ⟨rfl, rfl, ?_, rfl⟩
  intro s h
  have hl := congrArg String.length h
  simp only [main_publish_topic, String.length_append] at hl
  have h1 : ("/devices/" : String).length = 9 := by decide
  have h2 : ("/events" : String).length = 7 := by decide
  have h3 : ("/events/" : String).length = 8 := by decide
  omega

/-- Witness for C6 amended at the concrete device id dev-1 and source
robot. -/
theorem topics_amended_witness :
    main_publish_topic "dev-1" ≠ "/devices/" ++ "dev-1" ++ "/events/" ++ "robot" :=
  (topics_amended "dev-1" "robot").2.2.1 "robot"

/-- C7: the token minted by `new_password_jwt` embeds as its issue time
exactly the wall-clock reading taken inside the call, so credentials minted
at distinct times t1 < t2 embed issue times t1 and t2 respectively, with no
caching or staleness across mints; the audience is the fixed project id. -/
theorem jwt_issue_time_fresh (t1 t2 : Nat) (k1 k2 : String) :
    (new_password_jwt t1 k1).iat = t1
    ∧ (new_password_jwt t2 k2).iat = t2
    ∧ (t1 < t2 → (new_password_jwt t1 k1).iat < (new_password_jwt t2 k2).iat)
    ∧ (new_password_jwt t1 k1).aud = "digital-twin-experiment" := by
  exact ⟨rfl, rfl, fun h => h, rfl⟩

/-- Witness for C7 at mint times 100 and 200. -/
theorem jwt_issue_time_fresh_witness :
    (new_password_jwt 100 "key1").iat = 100
    ∧ (new_password_jwt 200 "key2").iat = 200
    ∧ (new_password_jwt 100 "key1").iat < (new_password_jwt 200 "key2").iat :=
  ⟨(jwt_issue_time_fresh 100 200 "key1" "key2").1,
   (jwt_issue_time_fresh 100 200 "key1" "key2").2.1,
   (jwt_issue_time_fresh 100 200 "key1" "key2").2.2.1 (by decide)⟩

/-- C8 counterexample: `add_new_material` on a `u32` count is not a plain
additive increase for every count and every n — at count `2 ^ 32 - 1` adding
1 wraps to 0 rather than yielding `2 ^ 32`. -/
theorem add_new_material_overflow_counterexample :
    (Feeder.add_new_material ⟨"f", 2 ^ 32 - 1, 0, []⟩ 1).count ≠ 2 ^ 32 - 1 + 1 := by
  decide

/-- C8 amended: `add_new_material n` sets the count to `(c + n) mod 2 ^ 32`
(the `u32` wrap), which is the plain sum `c + n` whenever that sum stays in
`u32` range; and a replenishment interleaved with a consumption loses no
update — applying replenish-then-consume and consume-then-replenish from the
same in-range state yields the same count. -/
theorem add_new_material_amended (f : Feeder) (n : Nat) :
    (f.add_new_material n).count = (f.count + n) % U32_MOD
    ∧ (f.count + n < U32_MOD → (f.add_new_material n).count = f.count + n)
    ∧ (∀ e rest, f.events = e :: rest → f.count ≠ 0 → f.count + n < U32_MOD →
        (f.applyOps [FeederOp.replenish n, FeederOp.consume]).count =
          (f.applyOps [FeederOp.consume, FeederOp.replenish n]).count
        ∧ (f.applyOps [FeederOp.replenish n, FeederOp.consume]).count =
            f.count + n - 1) := by
  refine ⟨rfl, fun h => ?_, fun e rest he hc hlt => ?_⟩
  · simp [Feeder.add_new_material, Nat.mod_eq_of_lt h]
  · have hsum : (f.count + n) % U32_MOD = f.count + n := Nat.mod_eq_of_lt hlt
    have hsub : (f.count - 1 + n) % U32_MOD = f.count - 1 + n :=
      Nat.mod_eq_of_lt (by omega)
    have hR : (f.applyOps [FeederOp.consume, FeederOp.replenish n]).count
        = f.count - 1 + n := by
      simp only [Feeder.applyOps, Feeder.applyOp, Feeder.async_next_event, he]
      rw [if_neg hc]
      exact hsub
    have hL : (f.applyOps [FeederOp.replenish n, FeederOp.consume]).count
        = f.count + n - 1 := by
      simp only [Feeder.applyOps, Feeder.applyOp, Feeder.add_new_material,
        Feeder.async_next_event, he, hsum]
      rw [if_neg (by omega : ¬ (f.count + n = 0))]
    exact ⟨by rw [hL, hR]; omega, hL⟩

/-- Witness for C8 amended at a concrete in-range feeder. -/
theorem add_new_material_amended_witness :
    (Feeder.add_new_material ⟨"f", 3, 0, [()]⟩ 10).count = 13
    ∧ (Feeder.applyOps ⟨"f", 3, 0, [()]⟩
          [FeederOp.replenish 10, FeederOp.consume]).count =
        (Feeder.applyOps ⟨"f", 3, 0, [()]⟩
          [FeederOp.consume, FeederOp.replenish 10]).count
    ∧ (Feeder.applyOps ⟨"f", 3, 0, [()]⟩
          [FeederOp.replenish 10, FeederOp.consume]).count = 12 :=
  ⟨(add_new_material_amended ⟨"f", 3, 0, [()]⟩ 10).2.1 (by norm_num [U32_MOD]),
   ((add_new_material_amended ⟨"f", 3, 0, [()]⟩ 10).2.2 () []
      rfl (by decide) (by norm_num [U32_MOD])).1,
   ((add_new_material_amended ⟨"f", 3, 0, [()]⟩ 10).2.2 () []
      rfl (by decide) (by norm_num [U32_MOD])).2⟩
